import Mathlib

/-!
Shallow embedding of the Betflix betting contract
(`src/packages/hardhat/contracts/Betflix.sol`, the ENS-enabled variant,
which is the variant the accompanying specification follows).

Conventions of the embedding:
* `uint256` values are `Nat` with explicit bound checks wherever Solidity 0.8
  checked arithmetic can revert; oracle `int64` / `int32` values are `Int`.
* Addresses are `Nat`, with `0` standing for `address(0)`.
* `keccak256` of a subdomain string is modelled by the string itself (the
  collision-resistant hash is abstracted as an injective map).
* Each external function is a total Lean function from the contract state and
  call parameters to `Except EvmError result`; returning `.error e` models
  `revert` (no state change persists).
* Oracle interaction is abstracted by parameters: the quoted update fee
  (`pyth.getUpdateFee`) and the `Option PythPrice` returned by
  `pyth.getPriceNoOlderThan` (`none` models the oracle reverting with no
  sufficiently fresh price).  The outcomes of the two `sendValue` ETH
  transfers and of the ENS `nameWrapper.setSubnodeRecord` call are abstracted
  by `Bool` parameters (`true` = the external call succeeds).
-/

namespace Betflix

/-- `type(uint256).max`. -/
def UINT256_MAX : Nat := 2 ^ 256 - 1

/-- `type(int256).max`, the bound checked by `SafeCast.toInt256`. -/
def INT256_MAX : Nat := 2 ^ 255 - 1

/-- `type(int64).max`, the bound checked by `SafeCast.toInt64`. -/
def INT64_MAX : Nat := 2 ^ 63 - 1

/-- `MIN_BET = 0.0000000001 ether`, i.e. `10^8` wei. -/
def MIN_BET : Nat := 100000000

/-- Minimum bet duration in seconds. -/
def MIN_DURATION : Nat := 60

/-- Maximum bet duration in seconds. -/
def MAX_DURATION : Nat := 3600

/-- Minimum join-window duration in seconds. -/
def MIN_JOIN_DURATION : Nat := 60

/-- Maximum join-window duration in seconds. -/
def MAX_JOIN_DURATION : Nat := 600

/-- The revert reasons of the contract: the named custom errors of
`Common.sol` together with the two anonymous revert kinds that the compiler
and the OpenZeppelin `SafeCast` library introduce. -/
inductive EvmError where
  | zeroAddress
  | betAmountTooLow
  | betDurationInvalid
  | betAlreadyExists
  | betDoesNotExist
  | betAlreadyJoined
  | betExpired
  | betNotExpired
  | betAlreadyResolved
  | transferFailed
  | priceFeedNotFound
  | priceStale
  | insufficientPythFee
  | onlyCreatorCanRefund
  | betNotMatched
  | invalidENSSubdomain
  | ensSubdomainTaken
  | safeCastOverflow
  | arithmeticPanic
  deriving DecidableEq

/-- A Pyth oracle price observation (`PythStructs.Price`), restricted to the
two fields the contract reads: the fixed-point price and its exponent. -/
structure PythPrice where
  price : Int
  expo : Int
  deriving DecidableEq

/-- The `Bet` struct of the contract. -/
structure Bet where
  player1 : Nat
  player2 : Nat
  amount : Nat
  targetPrice : Int
  priceExponent : Int
  deadline : Nat
  joinDeadline : Nat
  startPrice : Int
  pythUpdateFee : Nat
  resolved : Bool
  cancelled : Bool
  winner : Nat
  priceFeedId : Nat
  ensLabel : String
  ensSubdomain : String
  deriving DecidableEq

/-- The default value of a `Bet` storage slot: all fields zeroed.  A bet with
`player1 = 0` is treated by every function as nonexistent. -/
def emptyBet : Bet :=
  { player1 := 0, player2 := 0, amount := 0, targetPrice := 0,
    priceExponent := 0, deadline := 0, joinDeadline := 0, startPrice := 0,
    pythUpdateFee := 0, resolved := false, cancelled := false, winner := 0,
    priceFeedId := 0, ensLabel := "", ensSubdomain := "" }

/-- The contract storage relevant to the bet lifecycle: the `bets` mapping and
the `usedSubdomains` mapping. -/
structure BetflixState where
  bets : Nat → Bet
  usedSubdomains : String → Bool

/-- The storage state right after deployment: both mappings are everywhere
at their default values. -/
def initialState : BetflixState :=
  { bets := fun _ => emptyBet, usedSubdomains := fun _ => false }

/-- `_convertToPythPrice`: converts a whole-USD price to the oracle's
fixed-point representation.  The final two checks model the
`SafeCast.toInt256` / `SafeCast.toInt64` chain, which reverts with a cast
overflow (not with `PriceStale`) when the product does not fit. -/
def convertToPythPrice (usdPrice : Nat) (expo : Int) : Except EvmError Int :=
  if usdPrice = 0 then .error .priceStale
  else if usdPrice > 100000000 then .error .priceStale
  else if expo > -2 ∨ expo < -18 then .error .priceStale
  else
    let multiplier : Nat := 10 ^ (-expo).toNat
    if usdPrice > UINT256_MAX / multiplier then .error .priceStale
    else
      let pythPrice : Nat := usdPrice * multiplier
      if pythPrice > INT256_MAX then .error .safeCastOverflow
      else if pythPrice > INT64_MAX then .error .safeCastOverflow
      else .ok (pythPrice : Int)

/-- `getBetTargetPriceUSD`: converts a stored target price back to whole USD
by truncating division with `10 ^ uint32(-priceExponent)`.  The `uint32` cast
of the negated `int32` exponent wraps modulo `2^32`; negating the most
negative `int32` value is a checked-arithmetic panic; `SafeCast.toUint256`
reverts on a negative stored target. -/
def getBetTargetPriceUSD (s : BetflixState) (betId : Nat) : Except EvmError Nat :=
  let bet := s.bets betId
  if bet.player1 = 0 then .ok 0
  else if bet.priceExponent = -(2 ^ 31 : Int) then .error .arithmeticPanic
  else
    let divisorExp : Nat := ((-bet.priceExponent) % (2 ^ 32 : Int)).toNat
    if (10 : Nat) ^ divisorExp > UINT256_MAX then .error .arithmeticPanic
    else
      let divisor : Nat := 10 ^ divisorExp
      if bet.targetPrice < 0 then .error .safeCastOverflow
      else .ok (bet.targetPrice.toNat / divisor)

/-- `createBet` (together with its helper `_createBetWithENS`).  `pythFee` is
the oracle's quoted update fee, `oracle` the price observation returned after
the update, `betId` the value of the `keccak256` bet identifier, and
`timestamp` the value of `block.timestamp`.  Computing
`betAmount = msg.value - pythFee` underflows (an anonymous panic, not a named
error) when the escrowed value does not cover the fee. -/
def createBet (s : BetflixState) (sender msgValue pythFee : Nat)
    (oracle : Option PythPrice) (targetPrice duration joinDuration : Nat)
    (ensSub : String) (betId priceFeedId timestamp : Nat) :
    Except EvmError (BetflixState × Nat) :=
  if msgValue < pythFee then .error .arithmeticPanic
  else
    let betAmount : Nat := msgValue - pythFee
    if betAmount < MIN_BET then .error .betAmountTooLow
    else if duration < MIN_DURATION ∨ duration > MAX_DURATION then .error .betDurationInvalid
    else if joinDuration < MIN_JOIN_DURATION ∨ joinDuration > MAX_JOIN_DURATION then .error .betDurationInvalid
    else if joinDuration > duration then .error .betDurationInvalid
    else if msgValue < betAmount + pythFee then .error .insufficientPythFee
    else
      match oracle with
      | none => .error .priceStale
      | some currentPrice =>
        if currentPrice.price ≤ 0 then .error .priceStale
        else
          match convertToPythPrice targetPrice currentPrice.expo with
          | .error e => .error e
          | .ok targetPriceInPythFormat =>
            if (s.bets betId).player1 ≠ 0 then .error .betAlreadyExists
            else if ensSub.utf8ByteSize = 0 then .error .invalidENSSubdomain
            else if ensSub.utf8ByteSize > 63 then .error .invalidENSSubdomain
            else if s.usedSubdomains ensSub then .error .ensSubdomainTaken
            else if timestamp + duration > UINT256_MAX ∨ timestamp + joinDuration > UINT256_MAX then
              .error .arithmeticPanic
            else
              let newBet : Bet :=
                { player1 := sender, player2 := 0, amount := betAmount,
                  targetPrice := targetPriceInPythFormat,
                  priceExponent := currentPrice.expo,
                  deadline := timestamp + duration,
                  joinDeadline := timestamp + joinDuration,
                  startPrice := currentPrice.price,
                  pythUpdateFee := pythFee,
                  resolved := false, cancelled := false, winner := 0,
                  priceFeedId := priceFeedId,
                  ensLabel := ensSub, ensSubdomain := ensSub }
              .ok ({ bets := Function.update s.bets betId newBet,
                     usedSubdomains := Function.update s.usedSubdomains ensSub true },
                   betId)

/-- `joinBet`. -/
def joinBet (s : BetflixState) (sender msgValue betId timestamp : Nat) :
    Except EvmError BetflixState :=
  let bet := s.bets betId
  if bet.player1 = 0 then .error .betDoesNotExist
  else if bet.cancelled then .error .betAlreadyResolved
  else if bet.resolved then .error .betAlreadyResolved
  else if bet.player2 ≠ 0 then .error .betAlreadyJoined
  else if timestamp > bet.joinDeadline then .error .betExpired
  else if timestamp ≥ bet.deadline then .error .betExpired
  else if msgValue ≠ bet.amount then .error .betAmountTooLow
  else .ok { s with bets := Function.update s.bets betId { bet with player2 := sender } }

/-- The transfers a successful `resolveBet` performs: the pot sent to the
winner, the quoted oracle fee refunded to the caller, and whether the
best-effort ENS trophy transfer (attempted only when ENS is configured)
actually succeeded. -/
structure ResolveOut where
  winner : Nat
  loser : Nat
  winnerPayout : Nat
  resolverRefund : Nat
  trophyDelivered : Bool
  deriving DecidableEq

/-- `resolveBet`.  `payoutOk` / `refundOk` model the success of the two
`sendValue` transfers (each reverts the whole call on failure); the
`try ... catch {}` around `nameWrapper.setSubnodeRecord` is modelled by the
fact that `trophyOk` never influences the control flow, only the
`trophyDelivered` report. -/
def resolveBet (s : BetflixState) (sender msgValue pythFee : Nat)
    (oracle : Option PythPrice) (betId timestamp : Nat)
    (payoutOk refundOk ensConfigured trophyOk : Bool) :
    Except EvmError (BetflixState × ResolveOut) :=
  let bet := s.bets betId
  if bet.player1 = 0 then .error .betDoesNotExist
  else if bet.cancelled then .error .betAlreadyResolved
  else if bet.player2 = 0 then .error .betNotMatched
  else if timestamp < bet.deadline then .error .betNotExpired
  else if bet.resolved then .error .betAlreadyResolved
  else if msgValue < pythFee then .error .insufficientPythFee
  else
    match oracle with
    | none => .error .priceStale
    | some finalPrice =>
      if finalPrice.price ≤ 0 then .error .priceStale
      else if finalPrice.expo ≠ bet.priceExponent then .error .priceStale
      else
        let winner : Nat := if finalPrice.price ≥ bet.targetPrice then bet.player1 else bet.player2
        let loser : Nat := if finalPrice.price ≥ bet.targetPrice then bet.player2 else bet.player1
        if bet.amount * 2 > UINT256_MAX then .error .arithmeticPanic
        else
          let totalPot : Nat := bet.amount * 2
          if payoutOk = false then .error .transferFailed
          else if refundOk = false then .error .transferFailed
          else
            let resolvedBet : Bet := { bet with resolved := true, winner := winner }
            .ok ({ s with bets := Function.update s.bets betId resolvedBet },
                 { winner := winner, loser := loser, winnerPayout := totalPot,
                   resolverRefund := pythFee,
                   trophyDelivered := ensConfigured && trophyOk })

/-- `cancelBet`.  `refundOk` models the success of the refund `sendValue`
transfer, whose failure reverts the whole call. -/
def cancelBet (s : BetflixState) (sender betId timestamp : Nat) (refundOk : Bool) :
    Except EvmError (BetflixState × Nat) :=
  let bet := s.bets betId
  if bet.player1 = 0 then .error .betDoesNotExist
  else if bet.player1 ≠ sender then .error .onlyCreatorCanRefund
  else if bet.cancelled then .error .betAlreadyResolved
  else if bet.resolved then .error .betAlreadyResolved
  else if bet.player2 ≠ 0 then .error .betAlreadyJoined
  else if timestamp ≤ bet.joinDeadline then .error .betNotExpired
  else
    let refundAmount : Nat := bet.amount
    if refundOk = false then .error .transferFailed
    else
      .ok ({ bets := Function.update s.bets betId { bet with cancelled := true },
             usedSubdomains := Function.update s.usedSubdomains bet.ensLabel false },
           refundAmount)

/-- The winner `resolveBet` selects from a bet given the final oracle price:
the creator when the price reached the target, the joiner otherwise. -/
def resolveWinner (bet : Bet) (p : Int) : Nat :=
  if p ≥ bet.targetPrice then bet.player1 else bet.player2

/-- The loser `resolveBet` selects (the counterparty of `resolveWinner`). -/
def resolveLoser (bet : Bet) (p : Int) : Nat :=
  if p ≥ bet.targetPrice then bet.player2 else bet.player1

/-- The bet record as rewritten by a successful `resolveBet`. -/
def resolvedBetRec (bet : Bet) (p : Int) : Bet :=
  { bet with resolved := true, winner := resolveWinner bet p }

/-- The store state after a successful `resolveBet` of bet `betId` at final
price `p`. -/
def stateAfterResolve (s : BetflixState) (betId : Nat) (p : Int) : BetflixState :=
  { s with bets := Function.update s.bets betId (resolvedBetRec (s.bets betId) p) }

/-- The transfer report of a successful `resolveBet` of bet `betId` at final
price `p`. -/
def resolveOutRec (bet : Bet) (p : Int) (pythFee : Nat) (ec tOk : Bool) : ResolveOut :=
  { winner := resolveWinner bet p, loser := resolveLoser bet p,
    winnerPayout := bet.amount * 2, resolverRefund := pythFee,
    trophyDelivered := ec && tOk }

/-- The bet record as rewritten by a successful `joinBet` by `sender`. -/
def joinedBetRec (bet : Bet) (sender : Nat) : Bet :=
  { bet with player2 := sender }

/-- The bet record as rewritten by a successful `cancelBet`. -/
def cancelledBetRec (bet : Bet) : Bet :=
  { bet with cancelled := true }

/-- The store state after a successful `joinBet` of bet `betId` by `sender`. -/
def stateAfterJoin (s : BetflixState) (sender betId : Nat) : BetflixState :=
  { s with bets := Function.update s.bets betId (joinedBetRec (s.bets betId) sender) }

/-- The store state after a successful `cancelBet` of bet `betId`. -/
def stateAfterCancel (s : BetflixState) (betId : Nat) : BetflixState :=
  { bets := Function.update s.bets betId (cancelledBetRec (s.bets betId)),
    usedSubdomains := Function.update s.usedSubdomains (s.bets betId).ensLabel false }

/-- The bet record minted by a successful `createBet`. -/
def newBetRec (sender betAmount : Nat) (targetP : Int) (cp : PythPrice)
    (duration joinDuration pythFee priceFeedId : Nat) (ensSub : String)
    (timestamp : Nat) : Bet :=
  { player1 := sender, player2 := 0, amount := betAmount, targetPrice := targetP,
    priceExponent := cp.expo, deadline := timestamp + duration,
    joinDeadline := timestamp + joinDuration, startPrice := cp.price,
    pythUpdateFee := pythFee, resolved := false, cancelled := false, winner := 0,
    priceFeedId := priceFeedId, ensLabel := ensSub, ensSubdomain := ensSub }

/-- The store state after a successful `createBet` that minted bet `nb` at
identifier `betId` with trophy label `ensSub`. -/
def stateAfterCreate (s : BetflixState) (betId : Nat) (nb : Bet) (ensSub : String) : BetflixState :=
  { bets := Function.update s.bets betId nb,
    usedSubdomains := Function.update s.usedSubdomains ensSub true }

/-- One successful lifecycle operation against the store.  A reverted call
(`.error`) produces no step: it leaves no trace in storage. -/
inductive Step : BetflixState → BetflixState → Prop where
  | create (s : BetflixState) (sender msgValue pythFee : Nat) (oracle : Option PythPrice)
      (targetPrice duration joinDuration : Nat) (ensSub : String)
      (betId priceFeedId timestamp : Nat) (s' : BetflixState) (ret : Nat)
      (h : createBet s sender msgValue pythFee oracle targetPrice duration joinDuration
            ensSub betId priceFeedId timestamp = .ok (s', ret)) :
      Step s s'
  | join (s : BetflixState) (sender msgValue betId timestamp : Nat) (s' : BetflixState)
      (h : joinBet s sender msgValue betId timestamp = .ok s') : Step s s'
  | resolve (s : BetflixState) (sender msgValue pythFee : Nat) (oracle : Option PythPrice)
      (betId timestamp : Nat) (payoutOk refundOk ensConfigured trophyOk : Bool)
      (s' : BetflixState) (out : ResolveOut)
      (h : resolveBet s sender msgValue pythFee oracle betId timestamp
            payoutOk refundOk ensConfigured trophyOk = .ok (s', out)) :
      Step s s'
  | cancel (s : BetflixState) (sender betId timestamp : Nat) (refundOk : Bool)
      (s' : BetflixState) (refund : Nat)
      (h : cancelBet s sender betId timestamp refundOk = .ok (s', refund)) : Step s s'

/-- The states of the bet store reachable from deployment by successful
lifecycle operations. -/
inductive Reachable : BetflixState → Prop where
  | init : Reachable initialState
  | step (s s' : BetflixState) (hs : Reachable s) (hstep : Step s s') : Reachable s'

/-- The trophy-reservation bookkeeping invariant: every existing,
non-cancelled bet holds its label in `usedSubdomains`, and no two distinct
existing non-cancelled bets share a label. -/
def LabelInv (s : BetflixState) : Prop :=
  (∀ betId, (s.bets betId).player1 ≠ 0 → (s.bets betId).cancelled = false →
      s.usedSubdomains (s.bets betId).ensLabel = true) ∧
  (∀ betId betId2, betId ≠ betId2 →
      (s.bets betId).player1 ≠ 0 → (s.bets betId).cancelled = false →
      (s.bets betId2).player1 ≠ 0 → (s.bets betId2).cancelled = false →
      (s.bets betId).ensLabel ≠ (s.bets betId2).ensLabel)

/-! ### A concrete scenario used to exhibit reachable states

Creator address `1` creates bet `11` (label `"alpha"`, stake `2000000000` wei,
oracle fee `7`, target $50000 at exponent `-8`, window `[1000, 1300]`, join
window `[1000, 1060]`); address `2` joins at `1050`; address `3` resolves at
`1300` with final price `5000000000000` (= $50000, a tie).  A second,
independent bet `12` (label `"beta"`) is created and then cancelled at
`1061`. -/

/-- The oracle observation at creation time: $3000 at exponent `-8`. -/
def cpStart : PythPrice := ⟨300000000000, -8⟩

/-- The oracle observation at resolution time: $50000 at exponent `-8`. -/
def cpFinal : PythPrice := ⟨5000000000000, -8⟩

/-- The record of bet `11` as minted by `createBet`. -/
def betA : Bet := newBetRec 1 2000000000 5000000000000 cpStart 300 60 7 42 "alpha" 1000

/-- The store after creating bet `11`. -/
def sA : BetflixState := stateAfterCreate initialState 11 betA "alpha"

/-- The store after address `2` joins bet `11`. -/
def sB : BetflixState := stateAfterJoin sA 2 11

/-- The store after bet `11` is resolved at final price `5000000000000`. -/
def sC : BetflixState := stateAfterResolve sB 11 5000000000000

/-- The transfer report of the resolution of bet `11`. -/
def outC : ResolveOut := resolveOutRec (sB.bets 11) 5000000000000 9 true true

/-- The record of bet `12` as minted by `createBet`. -/
def betA2 : Bet := newBetRec 1 2000000000 5000000000000 cpStart 300 60 7 42 "beta" 1000

/-- The store after creating bet `12`. -/
def sA2 : BetflixState := stateAfterCreate initialState 12 betA2 "beta"

/-- The store after bet `12` is cancelled. -/
def sB2 : BetflixState := stateAfterCancel sA2 12

/-! ### Helper lemmas about the price conversion unit -/

/-- Inversion for a successful conversion: the inputs were in the accepted
ranges and the result is exactly `usdPrice * 10 ^ (-expo)`, which fits in
`int64`. -/
theorem convertToPythPrice_ok_inv {x : Nat} {e : Int} {p : Int}
    (h : convertToPythPrice x e = .ok p) :
    1 ≤ x ∧ x ≤ 100000000 ∧ -18 ≤ e ∧ e ≤ -2 ∧
      p = ((x * 10 ^ (-e).toNat : Nat) : Int) ∧ x * 10 ^ (-e).toNat ≤ INT64_MAX := by
  simp only [convertToPythPrice] at h
  split at h
  · exact Except.noConfusion h
  rename_i hx0
  split at h
  · exact Except.noConfusion h
  rename_i hxceil
  split at h
  · exact Except.noConfusion h
  rename_i hband
  split at h
  · exact Except.noConfusion h
  rename_i hdiv
  split at h
  · exact Except.noConfusion h
  rename_i h256
  split at h
  · exact Except.noConfusion h
  rename_i h64
  rw [Except.ok.injEq] at h
  push_neg at hband h64
  exact ⟨Nat.one_le_iff_ne_zero.mpr hx0, le_of_not_lt hxceil, hband.2, hband.1, h.symm, h64⟩

/-- Forward evaluation of the conversion on inputs that are in range and whose
product fits in `int64`. -/
theorem convertToPythPrice_ok_of {x : Nat} {e : Int}
    (h1 : 1 ≤ x) (h2 : x ≤ 100000000) (h3 : -18 ≤ e) (h4 : e ≤ -2)
    (h5 : x * 10 ^ (-e).toNat ≤ INT64_MAX) :
    convertToPythPrice x e = .ok ((x * 10 ^ (-e).toNat : Nat) : Int) := by
  simp only [convertToPythPrice]
  have hx0 : ¬ x = 0 := Nat.one_le_iff_ne_zero.mp h1
  have hmulpos : 0 < (10 : Nat) ^ (-e).toNat := Nat.pos_pow_of_pos _ (by decide)
  have hle256 : x * 10 ^ (-e).toNat ≤ UINT256_MAX :=
    le_trans h5 (by unfold INT64_MAX UINT256_MAX; decide)
  have hdiv : ¬ x > UINT256_MAX / 10 ^ (-e).toNat :=
    not_lt.mpr ((Nat.le_div_iff_mul_le hmulpos).mpr hle256)
  have h256 : ¬ x * 10 ^ (-e).toNat > INT256_MAX :=
    not_lt.mpr (le_trans h5 (by unfold INT64_MAX INT256_MAX; decide))
  rw [if_neg hx0, if_neg (not_lt.mpr h2),
      if_neg (by push_neg; exact ⟨h4, h3⟩),
      if_neg hdiv, if_neg h256, if_neg (not_lt.mpr h5)]

/-- Every input outside the accepted price or exponent ranges is rejected with
the price-format error (`PriceStale`). -/
theorem convertToPythPrice_formatError {x : Nat} {e : Int}
    (h : x = 0 ∨ x > 100000000 ∨ e > -2 ∨ e < -18) :
    convertToPythPrice x e = .error .priceStale := by
  simp only [convertToPythPrice]
  by_cases hx0 : x = 0
  · rw [if_pos hx0]
  · rw [if_neg hx0]
    by_cases hceil : x > 100000000
    · rw [if_pos hceil]
    · rw [if_neg hceil]
      have hband : e > -2 ∨ e < -18 := by
        rcases h with h | h | h | h
        · exact absurd h hx0
        · exact absurd h hceil
        · exact Or.inl h
        · exact Or.inr h
      rw [if_pos hband]

/-! ### Characterization lemmas for the lifecycle operations -/

/-- Evaluation of `resolveBet` when every guard passes and both transfers
succeed. -/
theorem resolveBet_ok_char (s : BetflixState) (sender msgValue pythFee : Nat)
    (p : Int) (betId timestamp : Nat) (ec tOk : Bool)
    (h1 : ¬ (s.bets betId).player1 = 0)
    (h2 : (s.bets betId).cancelled = false)
    (h3 : ¬ (s.bets betId).player2 = 0)
    (h4 : ¬ timestamp < (s.bets betId).deadline)
    (h5 : (s.bets betId).resolved = false)
    (h6 : ¬ msgValue < pythFee)
    (h7 : ¬ p ≤ 0)
    (h8 : ¬ (s.bets betId).amount * 2 > UINT256_MAX) :
    resolveBet s sender msgValue pythFee (some ⟨p, (s.bets betId).priceExponent⟩)
        betId timestamp true true ec tOk
      = .ok (stateAfterResolve s betId p,
             resolveOutRec (s.bets betId) p pythFee ec tOk) := by
  simp [resolveBet, h1, h2, h3, h4, h5, h6, h7, h8, stateAfterResolve,
    resolveOutRec, resolvedBetRec, resolveWinner, resolveLoser]

/-- Evaluation of `joinBet` when every guard passes. -/
theorem joinBet_ok_char (s : BetflixState) (sender msgValue betId timestamp : Nat)
    (h1 : ¬ (s.bets betId).player1 = 0)
    (h2 : (s.bets betId).cancelled = false)
    (h3 : (s.bets betId).resolved = false)
    (h4 : (s.bets betId).player2 = 0)
    (h5 : ¬ timestamp > (s.bets betId).joinDeadline)
    (h6 : ¬ timestamp ≥ (s.bets betId).deadline)
    (h7 : msgValue = (s.bets betId).amount) :
    joinBet s sender msgValue betId timestamp = .ok (stateAfterJoin s sender betId) := by
  simp [joinBet, h1, h2, h3, h4, h5, h6, h7, stateAfterJoin, joinedBetRec]

/-- Evaluation of `cancelBet` when every guard passes and the refund transfer
succeeds. -/
theorem cancelBet_ok_char (s : BetflixState) (betId timestamp : Nat)
    (h1 : ¬ (s.bets betId).player1 = 0)
    (h2 : (s.bets betId).cancelled = false)
    (h3 : (s.bets betId).resolved = false)
    (h4 : (s.bets betId).player2 = 0)
    (h5 : ¬ timestamp ≤ (s.bets betId).joinDeadline) :
    cancelBet s ((s.bets betId).player1) betId timestamp true
      = .ok (stateAfterCancel s betId, (s.bets betId).amount) := by
  simp [cancelBet, h1, h2, h3, h4, h5, stateAfterCancel, cancelledBetRec]

/-- Evaluation of `createBet` when every guard passes. -/
theorem createBet_ok_char (s : BetflixState) (sender msgValue pythFee : Nat)
    (cp : PythPrice) (targetPrice duration joinDuration : Nat) (ensSub : String)
    (betId priceFeedId timestamp : Nat) (targetP : Int)
    (h1 : ¬ msgValue < pythFee)
    (h2 : ¬ msgValue - pythFee < MIN_BET)
    (h3 : ¬ (duration < MIN_DURATION ∨ duration > MAX_DURATION))
    (h4 : ¬ (joinDuration < MIN_JOIN_DURATION ∨ joinDuration > MAX_JOIN_DURATION))
    (h5 : ¬ joinDuration > duration)
    (h6 : ¬ cp.price ≤ 0)
    (h7 : convertToPythPrice targetPrice cp.expo = .ok targetP)
    (h8 : (s.bets betId).player1 = 0)
    (h9 : ¬ ensSub.utf8ByteSize = 0)
    (h10 : ¬ ensSub.utf8ByteSize > 63)
    (h11 : s.usedSubdomains ensSub = false)
    (h12 : ¬ (timestamp + duration > UINT256_MAX ∨ timestamp + joinDuration > UINT256_MAX)) :
    createBet s sender msgValue pythFee (some cp) targetPrice duration joinDuration
        ensSub betId priceFeedId timestamp
      = .ok (stateAfterCreate s betId
               (newBetRec sender (msgValue - pythFee) targetP cp duration joinDuration
                 pythFee priceFeedId ensSub timestamp) ensSub,
             betId) := by
  have h13 : ¬ msgValue < msgValue - pythFee + pythFee := by omega
  simp [createBet, h1, h2, h3, h4, h5, h6, h7, h8, h9, h10, h11, h12, h13,
    stateAfterCreate, newBetRec]

/-! ### Inversion lemmas for the lifecycle operations -/

/-- Inversion for a successful `joinBet`. -/
theorem joinBet_ok_inv {s : BetflixState} {sender msgValue betId timestamp : Nat}
    {s' : BetflixState} (h : joinBet s sender msgValue betId timestamp = .ok s') :
    (s.bets betId).player1 ≠ 0 ∧ (s.bets betId).cancelled = false ∧
      (s.bets betId).resolved = false ∧ (s.bets betId).player2 = 0 ∧
      s' = stateAfterJoin s sender betId := by
  simp only [joinBet] at h
  split at h
  · exact Except.noConfusion h
  rename_i h1
  split at h
  · exact Except.noConfusion h
  rename_i h2
  split at h
  · exact Except.noConfusion h
  rename_i h3
  split at h
  · exact Except.noConfusion h
  rename_i h4
  split at h
  · exact Except.noConfusion h
  rename_i h5
  split at h
  · exact Except.noConfusion h
  rename_i h6
  split at h
  · exact Except.noConfusion h
  rename_i h7
  rw [Except.ok.injEq] at h
  simp only [Bool.not_eq_true] at h2 h3
  exact ⟨h1, h2, h3, not_not.mp h4, h.symm⟩

/-- Inversion for a successful `resolveBet`. -/
theorem resolveBet_ok_inv {s : BetflixState} {sender msgValue pythFee : Nat}
    {oracle : Option PythPrice} {betId timestamp : Nat}
    {payoutOk refundOk ensConfigured trophyOk : Bool}
    {s' : BetflixState} {out : ResolveOut}
    (h : resolveBet s sender msgValue pythFee oracle betId timestamp
          payoutOk refundOk ensConfigured trophyOk = .ok (s', out)) :
    (s.bets betId).player1 ≠ 0 ∧ (s.bets betId).cancelled = false ∧
      (s.bets betId).player2 ≠ 0 ∧ ¬ timestamp < (s.bets betId).deadline ∧
      (s.bets betId).resolved = false ∧ ¬ msgValue < pythFee ∧
      ∃ fp : PythPrice, oracle = some fp ∧ 0 < fp.price ∧
        fp.expo = (s.bets betId).priceExponent ∧
        s' = stateAfterResolve s betId fp.price ∧
        out = resolveOutRec (s.bets betId) fp.price pythFee ensConfigured trophyOk := by
  simp only [resolveBet] at h
  by_cases h1 : (s.bets betId).player1 = 0
  · rw [if_pos h1] at h; exact Except.noConfusion h
  rw [if_neg h1] at h
  by_cases h2 : (s.bets betId).cancelled = true
  · rw [if_pos h2] at h; exact Except.noConfusion h
  rw [if_neg h2] at h
  by_cases h3 : (s.bets betId).player2 = 0
  · rw [if_pos h3] at h; exact Except.noConfusion h
  rw [if_neg h3] at h
  by_cases h4 : timestamp < (s.bets betId).deadline
  · rw [if_pos h4] at h; exact Except.noConfusion h
  rw [if_neg h4] at h
  by_cases h5 : (s.bets betId).resolved = true
  · rw [if_pos h5] at h; exact Except.noConfusion h
  rw [if_neg h5] at h
  by_cases h6 : msgValue < pythFee
  · rw [if_pos h6] at h; exact Except.noConfusion h
  rw [if_neg h6] at h
  rcases oracle with _ | fp
  · exact Except.noConfusion h
  simp only [] at h
  by_cases h7 : fp.price ≤ 0
  · rw [if_pos h7] at h; exact Except.noConfusion h
  rw [if_neg h7] at h
  by_cases h8 : fp.expo ≠ (s.bets betId).priceExponent
  · rw [if_pos h8] at h; exact Except.noConfusion h
  rw [if_neg h8] at h
  by_cases h9 : (s.bets betId).amount * 2 > UINT256_MAX
  · rw [if_pos h9] at h; exact Except.noConfusion h
  rw [if_neg h9] at h
  by_cases h10 : payoutOk = false
  · rw [if_pos h10] at h; exact Except.noConfusion h
  rw [if_neg h10] at h
  by_cases h11 : refundOk = false
  · rw [if_pos h11] at h; exact Except.noConfusion h
  rw [if_neg h11] at h
  rw [Except.ok.injEq, Prod.mk.injEq] at h
  simp only [Bool.not_eq_true] at h2 h5
  refine ⟨h1, h2, h3, h4, h5, h6, fp, rfl, lt_of_not_le h7, not_not.mp h8,
    h.1.symm, h.2.symm⟩

/-- Inversion for a successful `cancelBet`. -/
theorem cancelBet_ok_inv {s : BetflixState} {sender betId timestamp : Nat}
    {refundOk : Bool} {s' : BetflixState} {refund : Nat}
    (h : cancelBet s sender betId timestamp refundOk = .ok (s', refund)) :
    (s.bets betId).player1 ≠ 0 ∧ (s.bets betId).player1 = sender ∧
      (s.bets betId).cancelled = false ∧ (s.bets betId).resolved = false ∧
      (s.bets betId).player2 = 0 ∧ ¬ timestamp ≤ (s.bets betId).joinDeadline ∧
      refund = (s.bets betId).amount ∧ s' = stateAfterCancel s betId := by
  simp only [cancelBet] at h
  split at h
  · exact Except.noConfusion h
  rename_i h1
  split at h
  · exact Except.noConfusion h
  rename_i h2
  split at h
  · exact Except.noConfusion h
  rename_i h3
  split at h
  · exact Except.noConfusion h
  rename_i h4
  split at h
  · exact Except.noConfusion h
  rename_i h5
  split at h
  · exact Except.noConfusion h
  rename_i h6
  split at h
  · exact Except.noConfusion h
  rename_i h7
  rw [Except.ok.injEq, Prod.mk.injEq] at h
  simp only [Bool.not_eq_true] at h3 h4
  exact ⟨h1, not_not.mp h2, h3, h4, not_not.mp h5, h6, h.2.symm, h.1.symm⟩

/-- Inversion for a successful `createBet`. -/
theorem createBet_ok_inv {s : BetflixState} {sender msgValue pythFee : Nat}
    {oracle : Option PythPrice} {targetPrice duration joinDuration : Nat}
    {ensSub : String} {betId priceFeedId timestamp : Nat}
    {s' : BetflixState} {ret : Nat}
    (h : createBet s sender msgValue pythFee oracle targetPrice duration joinDuration
          ensSub betId priceFeedId timestamp = .ok (s', ret)) :
    (s.bets betId).player1 = 0 ∧ s.usedSubdomains ensSub = false ∧
      ¬ msgValue < pythFee ∧ ¬ msgValue - pythFee < MIN_BET ∧
      ensSub.utf8ByteSize ≠ 0 ∧ ¬ ensSub.utf8ByteSize > 63 ∧ ret = betId ∧
      ∃ cp : PythPrice, ∃ targetP : Int, oracle = some cp ∧ 0 < cp.price ∧
        convertToPythPrice targetPrice cp.expo = .ok targetP ∧
        s' = stateAfterCreate s betId
               (newBetRec sender (msgValue - pythFee) targetP cp duration joinDuration
                 pythFee priceFeedId ensSub timestamp) ensSub := by
  simp only [createBet] at h
  by_cases h1 : msgValue < pythFee
  · rw [if_pos h1] at h; exact Except.noConfusion h
  rw [if_neg h1] at h
  by_cases h2 : msgValue - pythFee < MIN_BET
  · rw [if_pos h2] at h; exact Except.noConfusion h
  rw [if_neg h2] at h
  by_cases h3 : duration < MIN_DURATION ∨ duration > MAX_DURATION
  · rw [if_pos h3] at h; exact Except.noConfusion h
  rw [if_neg h3] at h
  by_cases h4 : joinDuration < MIN_JOIN_DURATION ∨ joinDuration > MAX_JOIN_DURATION
  · rw [if_pos h4] at h; exact Except.noConfusion h
  rw [if_neg h4] at h
  by_cases h5 : joinDuration > duration
  · rw [if_pos h5] at h; exact Except.noConfusion h
  rw [if_neg h5] at h
  by_cases h6 : msgValue < msgValue - pythFee + pythFee
  · rw [if_pos h6] at h; exact Except.noConfusion h
  rw [if_neg h6] at h
  rcases oracle with _ | cp
  · exact Except.noConfusion h
  simp only [] at h
  by_cases h7 : cp.price ≤ 0
  · rw [if_pos h7] at h; exact Except.noConfusion h
  rw [if_neg h7] at h
  cases htp : convertToPythPrice targetPrice cp.expo with
  | error e =>
    rw [htp] at h
    exact Except.noConfusion h
  | ok targetP =>
    rw [htp] at h
    simp only [] at h
    by_cases h8 : (s.bets betId).player1 ≠ 0
    · rw [if_pos h8] at h; exact Except.noConfusion h
    rw [if_neg h8] at h
    by_cases h9 : ensSub.utf8ByteSize = 0
    · rw [if_pos h9] at h; exact Except.noConfusion h
    rw [if_neg h9] at h
    by_cases h10 : ensSub.utf8ByteSize > 63
    · rw [if_pos h10] at h; exact Except.noConfusion h
    rw [if_neg h10] at h
    by_cases h11 : s.usedSubdomains ensSub = true
    · rw [if_pos h11] at h; exact Except.noConfusion h
    rw [if_neg h11] at h
    by_cases h12 : timestamp + duration > UINT256_MAX ∨ timestamp + joinDuration > UINT256_MAX
    · rw [if_pos h12] at h; exact Except.noConfusion h
    rw [if_neg h12] at h
    rw [Except.ok.injEq, Prod.mk.injEq] at h
    simp only [Bool.not_eq_true] at h11
    exact ⟨not_not.mp h8, h11, h1, h2, h9, h10, h.2.symm, cp, targetP, rfl,
      lt_of_not_le h7, htp, h.1.symm⟩

/-! ### Terminal bets reject every lifecycle call -/

/-- `joinBet` reverts on a bet that is already resolved or cancelled. -/
theorem joinBet_err_of_terminal (s : BetflixState) (sender msgValue betId timestamp : Nat)
    (ht : (s.bets betId).resolved = true ∨ (s.bets betId).cancelled = true) :
    ∃ e, joinBet s sender msgValue betId timestamp = .error e := by
  simp only [joinBet]
  by_cases h1 : (s.bets betId).player1 = 0
  · rw [if_pos h1]; exact ⟨_, rfl⟩
  rw [if_neg h1]
  by_cases h2 : (s.bets betId).cancelled = true
  · rw [if_pos h2]; exact ⟨_, rfl⟩
  rw [if_neg h2]
  have h3 : (s.bets betId).resolved = true := ht.resolve_right h2
  rw [if_pos h3]
  exact ⟨_, rfl⟩

/-- `resolveBet` reverts on a bet that is already resolved or cancelled,
whatever the oracle data, timing and transfer outcomes are. -/
theorem resolveBet_err_of_terminal (s : BetflixState) (sender msgValue pythFee : Nat)
    (oracle : Option PythPrice) (betId timestamp : Nat)
    (payoutOk refundOk ensConfigured trophyOk : Bool)
    (ht : (s.bets betId).resolved = true ∨ (s.bets betId).cancelled = true) :
    ∃ e, resolveBet s sender msgValue pythFee oracle betId timestamp
          payoutOk refundOk ensConfigured trophyOk = .error e := by
  simp only [resolveBet]
  by_cases h1 : (s.bets betId).player1 = 0
  · rw [if_pos h1]; exact ⟨_, rfl⟩
  rw [if_neg h1]
  by_cases h2 : (s.bets betId).cancelled = true
  · rw [if_pos h2]; exact ⟨_, rfl⟩
  rw [if_neg h2]
  by_cases h3 : (s.bets betId).player2 = 0
  · rw [if_pos h3]; exact ⟨_, rfl⟩
  rw [if_neg h3]
  by_cases h4 : timestamp < (s.bets betId).deadline
  · rw [if_pos h4]; exact ⟨_, rfl⟩
  rw [if_neg h4]
  have h5 : (s.bets betId).resolved = true := ht.resolve_right h2
  rw [if_pos h5]
  exact ⟨_, rfl⟩

/-- `cancelBet` reverts on a bet that is already resolved or cancelled,
whoever calls it. -/
theorem cancelBet_err_of_terminal (s : BetflixState) (sender betId timestamp : Nat)
    (refundOk : Bool)
    (ht : (s.bets betId).resolved = true ∨ (s.bets betId).cancelled = true) :
    ∃ e, cancelBet s sender betId timestamp refundOk = .error e := by
  simp only [cancelBet]
  by_cases h1 : (s.bets betId).player1 = 0
  · rw [if_pos h1]; exact ⟨_, rfl⟩
  rw [if_neg h1]
  by_cases h2 : (s.bets betId).player1 ≠ sender
  · rw [if_pos h2]; exact ⟨_, rfl⟩
  rw [if_neg h2]
  by_cases h3 : (s.bets betId).cancelled = true
  · rw [if_pos h3]; exact ⟨_, rfl⟩
  rw [if_neg h3]
  have h4 : (s.bets betId).resolved = true := ht.resolve_right h3
  rw [if_pos h4]
  exact ⟨_, rfl⟩

/-! ### Reachability invariants -/

/-- In every reachable state, no bet has both terminal flags set. -/
theorem reachable_no_both_flags (s : BetflixState) (hs : Reachable s) (betId : Nat) :
    ¬ ((s.bets betId).resolved = true ∧ (s.bets betId).cancelled = true) := by
  induction hs with
  | init =>
    intro hcontra
    exact absurd hcontra.1 (by simp [initialState, emptyBet])
  | step s s1 hr hstep ih =>
    intro hcontra
    cases hstep with
    | create =>
      rename_i sender msgValue pythFee oracle targetPrice duration joinDuration ensSub bId pfId ts ret h
      obtain ⟨-, -, -, -, -, -, -, cp, targetP, -, -, -, hS⟩ := createBet_ok_inv h
      subst hS
      by_cases hid : betId = bId
      · subst hid
        simp [stateAfterCreate, newBetRec, Function.update_same] at hcontra
      · rw [show (stateAfterCreate s bId _ ensSub).bets betId = s.bets betId from
          Function.update_noteq hid _ _] at hcontra
        exact ih hcontra
    | join =>
      rename_i sender msgValue bId ts h
      obtain ⟨-, -, -, -, hS⟩ := joinBet_ok_inv h
      subst hS
      by_cases hid : betId = bId
      · subst hid
        simp only [stateAfterJoin, Function.update_same, joinedBetRec] at hcontra
        exact ih hcontra
      · rw [show (stateAfterJoin s sender bId).bets betId = s.bets betId from
          Function.update_noteq hid _ _] at hcontra
        exact ih hcontra
    | resolve =>
      rename_i sender msgValue pythFee oracle bId ts pOk rOk ec tOk out h
      obtain ⟨-, hcanc, -, -, -, -, fp, -, -, -, hS, -⟩ := resolveBet_ok_inv h
      subst hS
      by_cases hid : betId = bId
      · subst hid
        simp only [stateAfterResolve, Function.update_same, resolvedBetRec] at hcontra
        rw [hcanc] at hcontra
        exact Bool.false_ne_true hcontra.2
      · rw [show (stateAfterResolve s bId fp.price).bets betId = s.bets betId from
          Function.update_noteq hid _ _] at hcontra
        exact ih hcontra
    | cancel =>
      rename_i sender bId ts rOk refund h
      obtain ⟨-, -, -, hres, -, -, -, hS⟩ := cancelBet_ok_inv h
      subst hS
      by_cases hid : betId = bId
      · subst hid
        simp only [stateAfterCancel, Function.update_same, cancelledBetRec] at hcontra
        rw [hres] at hcontra
        exact Bool.false_ne_true hcontra.1
      · rw [show (stateAfterCancel s bId).bets betId = s.bets betId from
          Function.update_noteq hid _ _] at hcontra
        exact ih hcontra

/-- `joinBet` does not change the creator, the cancelled flag or the label of
any bet record. -/
theorem stateAfterJoin_fields (s : BetflixState) (sender bId x : Nat) :
    ((stateAfterJoin s sender bId).bets x).player1 = (s.bets x).player1 ∧
    ((stateAfterJoin s sender bId).bets x).cancelled = (s.bets x).cancelled ∧
    ((stateAfterJoin s sender bId).bets x).ensLabel = (s.bets x).ensLabel := by
  by_cases hx : x = bId
  · subst hx
    simp [stateAfterJoin, joinedBetRec, Function.update_same]
  · simp [stateAfterJoin, Function.update_noteq hx]

/-- `resolveBet` does not change the creator, the cancelled flag or the label
of any bet record. -/
theorem stateAfterResolve_fields (s : BetflixState) (bId : Nat) (p : Int) (x : Nat) :
    ((stateAfterResolve s bId p).bets x).player1 = (s.bets x).player1 ∧
    ((stateAfterResolve s bId p).bets x).cancelled = (s.bets x).cancelled ∧
    ((stateAfterResolve s bId p).bets x).ensLabel = (s.bets x).ensLabel := by
  by_cases hx : x = bId
  · subst hx
    simp [stateAfterResolve, resolvedBetRec, Function.update_same]
  · simp [stateAfterResolve, Function.update_noteq hx]

/-- In every reachable state the trophy-reservation bookkeeping invariant
holds. -/
theorem reachable_labelInv (s : BetflixState) (hs : Reachable s) : LabelInv s := by
  induction hs with
  | init =>
    constructor
    · intro betId hp _
      exact absurd rfl hp
    · intro betId _ _ hp _ _ _
      exact absurd rfl hp
  | step s s1 hr hstep ih =>
    obtain ⟨ih1, ih2⟩ := ih
    cases hstep with
    | create =>
      rename_i sender msgValue pythFee oracle targetPrice duration joinDuration ensSub bId pfId ts ret h
      obtain ⟨hfresh, hused, -, -, -, -, -, cp, targetP, -, -, -, hS⟩ := createBet_ok_inv h
      subst hS
      constructor
      · intro betId hp hc
        simp only [stateAfterCreate] at hp hc ⊢
        by_cases hid : betId = bId
        · subst hid
          rw [Function.update_same] at hp hc ⊢
          simp [newBetRec, Function.update_same]
        · rw [Function.update_noteq hid] at hp hc ⊢
          by_cases hl : (s.bets betId).ensLabel = ensSub
          · rw [hl, Function.update_same]
          · rw [Function.update_noteq hl]
            exact ih1 betId hp hc
      · intro betId betId2 hne hp hc hp2 hc2
        simp only [stateAfterCreate] at hp hc hp2 hc2 ⊢
        by_cases hid : betId = bId <;> by_cases hid2 : betId2 = bId
        · exact absurd (hid.trans hid2.symm) hne
        · subst hid
          rw [Function.update_same] at hp hc ⊢
          rw [Function.update_noteq hid2] at hp2 hc2 ⊢
          intro heq
          have hlive := ih1 betId2 hp2 hc2
          rw [show (newBetRec sender (msgValue - pythFee) targetP cp duration
                joinDuration pythFee pfId ensSub ts).ensLabel = ensSub from rfl] at heq
          rw [← heq] at hlive
          rw [hused] at hlive
          exact Bool.false_ne_true hlive
        · subst hid2
          rw [Function.update_same] at hp2 hc2 ⊢
          rw [Function.update_noteq hid] at hp hc ⊢
          intro heq
          have hlive := ih1 betId hp hc
          rw [show (newBetRec sender (msgValue - pythFee) targetP cp duration
                joinDuration pythFee pfId ensSub ts).ensLabel = ensSub from rfl] at heq
          rw [heq] at hlive
          rw [hused] at hlive
          exact Bool.false_ne_true hlive
        · rw [Function.update_noteq hid] at hp hc ⊢
          rw [Function.update_noteq hid2] at hp2 hc2 ⊢
          exact ih2 betId betId2 hne hp hc hp2 hc2
    | join =>
      rename_i sender msgValue bId ts h
      obtain ⟨-, -, -, -, hS⟩ := joinBet_ok_inv h
      subst hS
      constructor
      · intro betId hp hc
        obtain ⟨f1, f2, f3⟩ := stateAfterJoin_fields s sender bId betId
        rw [f1] at hp
        rw [f2] at hc
        rw [f3]
        exact ih1 betId hp hc
      · intro betId betId2 hne hp hc hp2 hc2
        obtain ⟨f1, f2, f3⟩ := stateAfterJoin_fields s sender bId betId
        obtain ⟨g1, g2, g3⟩ := stateAfterJoin_fields s sender bId betId2
        rw [f1] at hp
        rw [f2] at hc
        rw [g1] at hp2
        rw [g2] at hc2
        rw [f3, g3]
        exact ih2 betId betId2 hne hp hc hp2 hc2
    | resolve =>
      rename_i sender msgValue pythFee oracle bId ts pOk rOk ec tOk out h
      obtain ⟨-, -, -, -, -, -, fp, -, -, -, hS, -⟩ := resolveBet_ok_inv h
      subst hS
      constructor
      · intro betId hp hc
        obtain ⟨f1, f2, f3⟩ := stateAfterResolve_fields s bId fp.price betId
        rw [f1] at hp
        rw [f2] at hc
        rw [f3]
        exact ih1 betId hp hc
      · intro betId betId2 hne hp hc hp2 hc2
        obtain ⟨f1, f2, f3⟩ := stateAfterResolve_fields s bId fp.price betId
        obtain ⟨g1, g2, g3⟩ := stateAfterResolve_fields s bId fp.price betId2
        rw [f1] at hp
        rw [f2] at hc
        rw [g1] at hp2
        rw [g2] at hc2
        rw [f3, g3]
        exact ih2 betId betId2 hne hp hc hp2 hc2
    | cancel =>
      rename_i sender bId ts rOk refund h
      obtain ⟨hp1, -, hcanc, -, -, -, -, hS⟩ := cancelBet_ok_inv h
      subst hS
      constructor
      · intro betId hp hc
        simp only [stateAfterCancel] at hp hc ⊢
        by_cases hid : betId = bId
        · subst hid
          rw [Function.update_same] at hc
          exact absurd hc (by simp [cancelledBetRec])
        · rw [Function.update_noteq hid] at hp hc ⊢
          have hdiff := ih2 betId bId hid hp hc hp1 hcanc
          rw [Function.update_noteq hdiff]
          exact ih1 betId hp hc
      · intro betId betId2 hne hp hc hp2 hc2
        simp only [stateAfterCancel] at hp hc hp2 hc2 ⊢
        by_cases hid : betId = bId
        · subst hid
          rw [Function.update_same] at hc
          exact absurd hc (by simp [cancelledBetRec])
        by_cases hid2 : betId2 = bId
        · subst hid2
          rw [Function.update_same] at hc2
          exact absurd hc2 (by simp [cancelledBetRec])
        rw [Function.update_noteq hid] at hp hc ⊢
        rw [Function.update_noteq hid2] at hp2 hc2 ⊢
        exact ih2 betId betId2 hne hp hc hp2 hc2

/-! ### The concrete scenario is reachable -/

/-- Creation of bet `11` evaluates to a success ending in `sA`. -/
theorem createA_eq :
    createBet initialState 1 2000000007 7 (some cpStart) 50000 300 60 "alpha" 11 42 1000
      = .ok (sA, 11) := rfl

/-- `sA` is reachable. -/
theorem sA_reachable : Reachable sA :=
  Reachable.step _ _ Reachable.init
    (Step.create _ _ _ _ _ _ _ _ _ _ _ _ _ _ createA_eq)

/-- Joining bet `11` evaluates to a success ending in `sB`. -/
theorem joinB_eq : joinBet sA 2 2000000000 11 1050 = .ok sB := rfl

/-- `sB` is reachable. -/
theorem sB_reachable : Reachable sB :=
  Reachable.step _ _ sA_reachable (Step.join _ _ _ _ _ _ joinB_eq)

/-- Resolving bet `11` evaluates to a success ending in `sC`. -/
theorem resolveC_eq :
    resolveBet sB 3 9 9 (some cpFinal) 11 1300 true true true true = .ok (sC, outC) := rfl

/-- `sC` is reachable. -/
theorem sC_reachable : Reachable sC :=
  Reachable.step _ _ sB_reachable (Step.resolve _ _ _ _ _ _ _ _ _ _ _ _ _ resolveC_eq)

/-- Creation of bet `12` evaluates to a success ending in `sA2`. -/
theorem createA2_eq :
    createBet initialState 1 2000000007 7 (some cpStart) 50000 300 60 "beta" 12 42 1000
      = .ok (sA2, 12) := rfl

/-- `sA2` is reachable. -/
theorem sA2_reachable : Reachable sA2 :=
  Reachable.step _ _ Reachable.init
    (Step.create _ _ _ _ _ _ _ _ _ _ _ _ _ _ createA2_eq)

/-- Cancelling bet `12` evaluates to a success ending in `sB2`. -/
theorem cancelB2_eq : cancelBet sA2 1 12 1061 true = .ok (sB2, 2000000000) := rfl

/-- `sB2` is reachable. -/
theorem sB2_reachable : Reachable sB2 :=
  Reachable.step _ _ sA2_reachable (Step.cancel _ _ _ _ _ _ _ cancelB2_eq)

/-! ### Further shared helper lemmas -/

/-- The conversion only ever fails with the price-format error or a cast
overflow. -/
theorem convertToPythPrice_error_kinds {x : Nat} {e : Int} {r : EvmError}
    (h : convertToPythPrice x e = .error r) :
    r = .priceStale ∨ r = .safeCastOverflow := by
  simp only [convertToPythPrice] at h
  split at h
  · exact Or.inl (Except.error.inj h).symm
  split at h
  · exact Or.inl (Except.error.inj h).symm
  split at h
  · exact Or.inl (Except.error.inj h).symm
  split at h
  · exact Or.inl (Except.error.inj h).symm
  split at h
  · exact Or.inr (Except.error.inj h).symm
  split at h
  · exact Or.inr (Except.error.inj h).symm
  exact Except.noConfusion h

/-- `createBet` fails with the label-taken error when every earlier guard
passes but the requested label is reserved. -/
theorem createBet_label_taken (s : BetflixState) (sender msgValue pythFee : Nat)
    (cp : PythPrice) (targetPrice duration joinDuration : Nat) (ensSub : String)
    (betId priceFeedId timestamp : Nat) (targetP : Int)
    (h1 : ¬ msgValue < pythFee)
    (h2 : ¬ msgValue - pythFee < MIN_BET)
    (h3 : ¬ (duration < MIN_DURATION ∨ duration > MAX_DURATION))
    (h4 : ¬ (joinDuration < MIN_JOIN_DURATION ∨ joinDuration > MAX_JOIN_DURATION))
    (h5 : ¬ joinDuration > duration)
    (h6 : ¬ cp.price ≤ 0)
    (h7 : convertToPythPrice targetPrice cp.expo = .ok targetP)
    (h8 : (s.bets betId).player1 = 0)
    (h9 : ¬ ensSub.utf8ByteSize = 0)
    (h10 : ¬ ensSub.utf8ByteSize > 63)
    (h11 : s.usedSubdomains ensSub = true) :
    createBet s sender msgValue pythFee (some cp) targetPrice duration joinDuration
        ensSub betId priceFeedId timestamp = .error .ensSubdomainTaken := by
  have h13 : ¬ msgValue < msgValue - pythFee + pythFee := by omega
  simp [createBet, h1, h2, h3, h4, h5, h6, h7, h8, h9, h10, h11, h13]

/-! ### The claims -/

/-- C2: the claim that `_convertToPythPrice` succeeds for every
`1 ≤ usdPrice ≤ 100000000` and `-18 ≤ expo ≤ -2` is false on the code: the
inputs below are inside all the accepted ranges, yet the conversion reverts
with the `SafeCast` int64 downcast overflow (`10 * 10^18` and
`100000000 * 10^18` both exceed `2^63 - 1`), contradicting the code's own
comment that the ceiling is "safe for all exponents". -/
theorem C2_conversion_overflow_bug :
    (1 ≤ 10 ∧ (10 : Nat) ≤ 100000000 ∧ (-18 : Int) ≤ -18 ∧ (-18 : Int) ≤ -2) ∧
    convertToPythPrice 10 (-18) = .error .safeCastOverflow ∧
    convertToPythPrice 100000000 (-18) = .error .safeCastOverflow ∧
    (∀ q : Int, convertToPythPrice 10 (-18) ≠ .ok q) := by
  refine ⟨by decide, rfl, rfl, ?_⟩
  intro q hq
  rw [show convertToPythPrice 10 (-18) = .error .safeCastOverflow from rfl] at hq
  exact Except.noConfusion hq

/-- C7: the price conversion round-trips.  Whenever the conversion accepts
`(x, e)` and the resulting fixed-point price is stored as a bet's
`targetPrice` (with `priceExponent = e`), `getBetTargetPriceUSD` recovers
exactly `x` by truncating division; and every zero, above-ceiling or
out-of-band input fails with the price-format error. -/
theorem C7_price_roundtrip (s : BetflixState) (betId : Nat) (x : Nat) (e : Int)
    (hplayer : (s.bets betId).player1 ≠ 0)
    (hconv : convertToPythPrice x e = .ok ((s.bets betId).targetPrice))
    (hexp : (s.bets betId).priceExponent = e) :
    getBetTargetPriceUSD s betId = .ok x ∧
    (∀ (y : Nat) (d : Int), y = 0 ∨ y > 100000000 ∨ d > -2 ∨ d < -18 →
      convertToPythPrice y d = .error .priceStale) := by
  obtain ⟨hx1, hx2, he1, he2, htp, hfit⟩ := convertToPythPrice_ok_inv hconv
  refine ⟨?_, fun y d hyd => convertToPythPrice_formatError hyd⟩
  have h2to32 : (2 ^ 32 : Int) = 4294967296 := by norm_num
  have h2to31 : (-(2 ^ 31 : Int)) = -2147483648 := by norm_num
  simp only [getBetTargetPriceUSD, hexp]
  rw [if_neg hplayer]
  rw [if_neg (show ¬ e = -(2 ^ 31 : Int) by omega)]
  have hmod : (-e) % (2 ^ 32 : Int) = -e := Int.emod_eq_of_lt (by omega) (by omega)
  rw [hmod]
  have hexp18 : (-e).toNat ≤ 18 := Int.toNat_le.mpr (by omega)
  have hsmall : ¬ (10 : Nat) ^ (-e).toNat > UINT256_MAX := by
    have hle : (10 : Nat) ^ (-e).toNat ≤ 10 ^ 18 :=
      Nat.pow_le_pow_right (by decide) hexp18
    have : (10 : Nat) ^ 18 ≤ UINT256_MAX := by unfold UINT256_MAX; decide
    omega
  rw [if_neg hsmall]
  rw [htp]
  rw [if_neg (show ¬ ((x * 10 ^ (-e).toNat : Nat) : Int) < 0 from
    not_lt.mpr (Int.natCast_nonneg _))]
  rw [Except.ok.injEq, Int.toNat_natCast]
  exact Nat.mul_div_cancel x (Nat.pos_pow_of_pos _ (by decide))

/-- C9 counterexample: in `sA` bet `11` exists, is not cancelled, and the
time `1100` is strictly before its deadline `1300`, yet `resolveBet` fails
with the not-yet-matched error rather than the window error: the
unmatched-bet check precedes the deadline check. -/
theorem C9_counterexample :
    (sA.bets 11).player1 ≠ 0 ∧ (sA.bets 11).cancelled = false ∧
    1100 < (sA.bets 11).deadline ∧
    resolveBet sA 3 9 9 (some ⟨1, -8⟩) 11 1100 true true false false
      = .error .betNotMatched ∧
    EvmError.betNotMatched ≠ EvmError.betNotExpired := by
  exact ⟨by decide, rfl, by decide, rfl, by decide⟩

/-- C9 amended: for an existing non-cancelled *matched* bet, `resolveBet`
strictly before the deadline always fails with the window error; for an
existing non-cancelled *unmatched* bet it always fails with the
not-yet-matched error, at any time (the match check precedes the deadline
check). -/
theorem C9_amended_resolve_errors (s : BetflixState) (sender msgValue pythFee : Nat)
    (oracle : Option PythPrice) (betId timestamp : Nat) (pOk rOk ec tOk : Bool)
    (h1 : (s.bets betId).player1 ≠ 0)
    (h2 : (s.bets betId).cancelled = false) :
    ((s.bets betId).player2 ≠ 0 → timestamp < (s.bets betId).deadline →
      resolveBet s sender msgValue pythFee oracle betId timestamp pOk rOk ec tOk
        = .error .betNotExpired) ∧
    ((s.bets betId).player2 = 0 →
      resolveBet s sender msgValue pythFee oracle betId timestamp pOk rOk ec tOk
        = .error .betNotMatched) := by
  constructor
  · intro h3 h4
    simp [resolveBet, h1, h2, h3, h4]
  · intro h3
    simp [resolveBet, h1, h2, h3]

/-- Witness for the amended C9: in `sB` bet `11` is matched and `1100` is
before the deadline, so resolution fails with the window error; in `sA` the
same bet is unmatched, so resolution at the same time fails with the
not-yet-matched error. -/
theorem C9_amended_witness :
    resolveBet sB 3 9 9 (some ⟨1, -8⟩) 11 1100 true true false false
      = .error .betNotExpired ∧
    resolveBet sA 3 9 9 (some ⟨1, -8⟩) 11 1100 true true false false
      = .error .betNotMatched :=
  ⟨(C9_amended_resolve_errors sB 3 9 9 (some ⟨1, -8⟩) 11 1100 true true false false
      (by decide) (by decide)).1 (by decide) (by decide),
   (C9_amended_resolve_errors sA 3 9 9 (some ⟨1, -8⟩) 11 1100 true true false false
      (by decide) (by decide)).2 (by decide)⟩

/-- C10: when the escrowed value does not cover the quoted oracle fee,
`createBet` aborts with the anonymous checked-subtraction underflow panic,
and for all inputs whatsoever the named `InsufficientPythFee` error of
`createBet` is unreachable, because once the subtraction succeeds the guard
`msg.value < betAmount + pythFee` compares `msg.value` with itself. -/
theorem C10_insufficient_fee_unreachable (s : BetflixState)
    (sender msgValue pythFee : Nat) (oracle : Option PythPrice)
    (targetPrice duration joinDuration : Nat) (ensSub : String)
    (betId priceFeedId timestamp : Nat) :
    (msgValue < pythFee →
      createBet s sender msgValue pythFee oracle targetPrice duration joinDuration
        ensSub betId priceFeedId timestamp = .error .arithmeticPanic) ∧
    createBet s sender msgValue pythFee oracle targetPrice duration joinDuration
        ensSub betId priceFeedId timestamp ≠ .error .insufficientPythFee := by
  constructor
  · intro hlt
    simp [createBet, hlt]
  · intro hcontra
    simp only [createBet] at hcontra
    by_cases h1 : msgValue < pythFee
    · rw [if_pos h1] at hcontra
      simp at hcontra
    rw [if_neg h1] at hcontra
    by_cases h2 : msgValue - pythFee < MIN_BET
    · rw [if_pos h2] at hcontra
      simp at hcontra
    rw [if_neg h2] at hcontra
    by_cases h3 : duration < MIN_DURATION ∨ duration > MAX_DURATION
    · rw [if_pos h3] at hcontra
      simp at hcontra
    rw [if_neg h3] at hcontra
    by_cases h4 : joinDuration < MIN_JOIN_DURATION ∨ joinDuration > MAX_JOIN_DURATION
    · rw [if_pos h4] at hcontra
      simp at hcontra
    rw [if_neg h4] at hcontra
    by_cases h5 : joinDuration > duration
    · rw [if_pos h5] at hcontra
      simp at hcontra
    rw [if_neg h5] at hcontra
    rw [if_neg (show ¬ msgValue < msgValue - pythFee + pythFee by omega)] at hcontra
    rcases oracle with _ | cp
    · simp at hcontra
    simp only [] at hcontra
    by_cases h6 : cp.price ≤ 0
    · rw [if_pos h6] at hcontra
      simp at hcontra
    rw [if_neg h6] at hcontra
    cases htp : convertToPythPrice targetPrice cp.expo with
    | error e =>
      rw [htp] at hcontra
      simp only [] at hcontra
      have he := Except.error.inj hcontra
      rcases convertToPythPrice_error_kinds htp with hk | hk <;> rw [hk] at he <;>
        exact EvmError.noConfusion he
    | ok targetP =>
      rw [htp] at hcontra
      simp only [] at hcontra
      by_cases h7 : (s.bets betId).player1 ≠ 0
      · rw [if_pos h7] at hcontra
        simp at hcontra
      rw [if_neg h7] at hcontra
      by_cases h8 : ensSub.utf8ByteSize = 0
      · rw [if_pos h8] at hcontra
        simp at hcontra
      rw [if_neg h8] at hcontra
      by_cases h9 : ensSub.utf8ByteSize > 63
      · rw [if_pos h9] at hcontra
        simp at hcontra
      rw [if_neg h9] at hcontra
      by_cases h10 : s.usedSubdomains ensSub = true
      · rw [if_pos h10] at hcontra
        simp at hcontra
      rw [if_neg h10] at hcontra
      by_cases h11 : timestamp + duration > UINT256_MAX ∨ timestamp + joinDuration > UINT256_MAX
      · rw [if_pos h11] at hcontra
        simp at hcontra
      rw [if_neg h11] at hcontra
      exact Except.noConfusion hcontra

/-- C1: for every matched bet resolved after its deadline with a positive
fresh final price at the bet's stored exponent, the winner is the creator
exactly when `finalPrice ≥ targetPrice` (ties included), the joiner
otherwise; for a fixed target the winner, as a function of the final price,
is the creator exactly on `[targetPrice, ∞)`, so it flips once, at the
target. -/
theorem C1_winner_determination (s : BetflixState) (sender msgValue pythFee : Nat)
    (p : Int) (betId timestamp : Nat) (ec tOk : Bool)
    (h1 : (s.bets betId).player1 ≠ 0)
    (h2 : (s.bets betId).cancelled = false)
    (h3 : (s.bets betId).player2 ≠ 0)
    (h4 : (s.bets betId).deadline ≤ timestamp)
    (h5 : (s.bets betId).resolved = false)
    (h6 : pythFee ≤ msgValue)
    (h7 : 0 < p)
    (h8 : (s.bets betId).amount * 2 ≤ UINT256_MAX) :
    ∃ s2 out,
      resolveBet s sender msgValue pythFee (some ⟨p, (s.bets betId).priceExponent⟩)
          betId timestamp true true ec tOk = .ok (s2, out) ∧
      out.winner = (if p ≥ (s.bets betId).targetPrice then (s.bets betId).player1
                    else (s.bets betId).player2) ∧
      (s2.bets betId).winner = out.winner ∧
      (s2.bets betId).resolved = true ∧
      (p = (s.bets betId).targetPrice → out.winner = (s.bets betId).player1) ∧
      ((s.bets betId).player1 ≠ (s.bets betId).player2 →
        ((out.winner = (s.bets betId).player1 ↔ (s.bets betId).targetPrice ≤ p) ∧
         (out.winner = (s.bets betId).player2 ↔ p < (s.bets betId).targetPrice))) := by
  have hchar := resolveBet_ok_char s sender msgValue pythFee p betId timestamp ec tOk
    h1 h2 h3 (not_lt.mpr h4) h5 (not_lt.mpr h6) (not_le.mpr h7) (not_lt.mpr h8)
  refine ⟨_, _, hchar, rfl, ?_, ?_, ?_, ?_⟩
  · simp [stateAfterResolve, resolvedBetRec, Function.update_same, resolveOutRec,
      resolveWinner]
  · simp [stateAfterResolve, resolvedBetRec, Function.update_same]
  · intro hp
    simp [resolveOutRec, resolveWinner, hp]
  · intro hne
    by_cases hge : (s.bets betId).targetPrice ≤ p
    · constructor
      · simp [resolveOutRec, resolveWinner, ge_iff_le, hge]
      · simp [resolveOutRec, resolveWinner, ge_iff_le, hge, hne, not_lt.mpr hge]
    · constructor
      · simp only [resolveOutRec, resolveWinner, ge_iff_le, if_neg hge]
        constructor
        · intro hcontra
          exact absurd hcontra.symm hne
        · intro hcontra
          exact absurd hcontra hge
      · simp [resolveOutRec, resolveWinner, ge_iff_le, hge, not_le.mp hge]

/-- Witness for C1 at the concrete matched bet `11` of `sB`, resolved at the
tie price `5000000000000` (= the target): the creator (address `1`) wins. -/
theorem C1_witness :
    ∃ s2 out,
      resolveBet sB 3 9 9 (some ⟨5000000000000, (sB.bets 11).priceExponent⟩)
          11 1300 true true true true = .ok (s2, out) ∧
      out.winner = (if (5000000000000 : Int) ≥ (sB.bets 11).targetPrice
                    then (sB.bets 11).player1 else (sB.bets 11).player2) ∧
      (s2.bets 11).winner = out.winner ∧
      (s2.bets 11).resolved = true ∧
      ((5000000000000 : Int) = (sB.bets 11).targetPrice →
        out.winner = (sB.bets 11).player1) ∧
      ((sB.bets 11).player1 ≠ (sB.bets 11).player2 →
        ((out.winner = (sB.bets 11).player1 ↔ (sB.bets 11).targetPrice ≤ 5000000000000) ∧
         (out.winner = (sB.bets 11).player2 ↔ (5000000000000 : Int) < (sB.bets 11).targetPrice))) :=
  C1_winner_determination sB 3 9 9 5000000000000 11 1300 true true
    (by decide) (by decide) (by decide) (by decide) (by decide) (by decide)
    (by decide) (by decide)

/-- C3: on every successful resolution the total paid out (pot plus fee
refund) never exceeds the total escrowed for the bet (both stakes, the
creator's oracle fee and the resolver's fee payment), and the resolver is
refunded exactly the quoted fee even when their payment exceeded it. -/
theorem C3_payout_conservation (s : BetflixState) (sender msgValue pythFee : Nat)
    (p : Int) (betId timestamp : Nat) (ec tOk : Bool)
    (h1 : (s.bets betId).player1 ≠ 0)
    (h2 : (s.bets betId).cancelled = false)
    (h3 : (s.bets betId).player2 ≠ 0)
    (h4 : (s.bets betId).deadline ≤ timestamp)
    (h5 : (s.bets betId).resolved = false)
    (h6 : pythFee ≤ msgValue)
    (h7 : 0 < p)
    (h8 : (s.bets betId).amount * 2 ≤ UINT256_MAX) :
    ∃ s2 out,
      resolveBet s sender msgValue pythFee (some ⟨p, (s.bets betId).priceExponent⟩)
          betId timestamp true true ec tOk = .ok (s2, out) ∧
      out.winnerPayout + out.resolverRefund
        ≤ 2 * (s.bets betId).amount + (s.bets betId).pythUpdateFee + msgValue ∧
      out.resolverRefund = pythFee := by
  have hchar := resolveBet_ok_char s sender msgValue pythFee p betId timestamp ec tOk
    h1 h2 h3 (not_lt.mpr h4) h5 (not_lt.mpr h6) (not_le.mpr h7) (not_lt.mpr h8)
  refine ⟨_, _, hchar, ?_, rfl⟩
  simp only [resolveOutRec]
  omega

/-- Witness for C3 at the concrete bet `11` of `sB`, resolved by a caller who
paid `20` against a quoted fee of `9`: the paid-out total stays within the
escrow and the refund is exactly `9`. -/
theorem C3_witness :
    ∃ s2 out,
      resolveBet sB 3 20 9 (some ⟨5000000000000, (sB.bets 11).priceExponent⟩)
          11 1300 true true true true = .ok (s2, out) ∧
      out.winnerPayout + out.resolverRefund
        ≤ 2 * (sB.bets 11).amount + (sB.bets 11).pythUpdateFee + 20 ∧
      out.resolverRefund = 9 :=
  C3_payout_conservation sB 3 20 9 5000000000000 11 1300 true true
    (by decide) (by decide) (by decide) (by decide) (by decide) (by decide)
    (by decide) (by decide)

/-- C4: the oracle fee escrowed at creation is never returned: a successful
resolution pays the winner exactly twice the stake (the stored
`pythUpdateFee` is not added), and a successful cancellation refunds the
creator exactly the stake (the `pythUpdateFee` is not refunded). -/
theorem C4_oracle_fee_never_returned (s : BetflixState)
    (sender msgValue pythFee : Nat) (p : Int) (betId timestamp : Nat) (ec tOk : Bool)
    (sc : BetflixState) (betId2 timestamp2 : Nat)
    (h1 : (s.bets betId).player1 ≠ 0)
    (h2 : (s.bets betId).cancelled = false)
    (h3 : (s.bets betId).player2 ≠ 0)
    (h4 : (s.bets betId).deadline ≤ timestamp)
    (h5 : (s.bets betId).resolved = false)
    (h6 : pythFee ≤ msgValue)
    (h7 : 0 < p)
    (h8 : (s.bets betId).amount * 2 ≤ UINT256_MAX)
    (g1 : (sc.bets betId2).player1 ≠ 0)
    (g2 : (sc.bets betId2).cancelled = false)
    (g3 : (sc.bets betId2).resolved = false)
    (g4 : (sc.bets betId2).player2 = 0)
    (g5 : (sc.bets betId2).joinDeadline < timestamp2) :
    (∃ s2 out,
      resolveBet s sender msgValue pythFee (some ⟨p, (s.bets betId).priceExponent⟩)
          betId timestamp true true ec tOk = .ok (s2, out) ∧
      out.winnerPayout = 2 * (s.bets betId).amount) ∧
    (∃ s3, cancelBet sc ((sc.bets betId2).player1) betId2 timestamp2 true
      = .ok (s3, (sc.bets betId2).amount)) := by
  constructor
  · have hchar := resolveBet_ok_char s sender msgValue pythFee p betId timestamp ec tOk
      h1 h2 h3 (not_lt.mpr h4) h5 (not_lt.mpr h6) (not_le.mpr h7) (not_lt.mpr h8)
    refine ⟨_, _, hchar, ?_⟩
    simp only [resolveOutRec]
    omega
  · exact ⟨_, cancelBet_ok_char sc betId2 timestamp2 g1 g2 g3 g4 (not_le.mpr g5)⟩

/-- Witness for C4: resolving bet `11` of `sB` pays exactly twice the stake,
and cancelling bet `12` of `sA2` refunds exactly the stake. -/
theorem C4_witness :
    (∃ s2 out,
      resolveBet sB 3 9 9 (some ⟨5000000000000, (sB.bets 11).priceExponent⟩)
          11 1300 true true true true = .ok (s2, out) ∧
      out.winnerPayout = 2 * (sB.bets 11).amount) ∧
    (∃ s3, cancelBet sA2 ((sA2.bets 12).player1) 12 1061 true
      = .ok (s3, (sA2.bets 12).amount)) :=
  C4_oracle_fee_never_returned sB 3 9 9 5000000000000 11 1300 true true sA2 12 1061
    (by decide) (by decide) (by decide) (by decide) (by decide) (by decide)
    (by decide) (by decide) (by decide) (by decide) (by decide) (by decide)
    (by decide)

/-- C5: in every reachable store state no bet has both terminal flags set,
and once a bet is terminal (resolved or cancelled) every further `joinBet`,
`resolveBet` or `cancelBet` call on it reverts — and a reverted call leaves
the store unchanged by construction of the semantics. -/
theorem C5_terminal_finality (s : BetflixState) (hs : Reachable s) (betId : Nat) :
    ¬ ((s.bets betId).resolved = true ∧ (s.bets betId).cancelled = true) ∧
    ((s.bets betId).resolved = true ∨ (s.bets betId).cancelled = true →
      (∀ sender msgValue timestamp,
        ∃ e, joinBet s sender msgValue betId timestamp = .error e) ∧
      (∀ sender msgValue pythFee oracle timestamp pOk rOk ec tOk,
        ∃ e, resolveBet s sender msgValue pythFee oracle betId timestamp
              pOk rOk ec tOk = .error e) ∧
      (∀ sender timestamp rOk,
        ∃ e, cancelBet s sender betId timestamp rOk = .error e)) :=
  ⟨reachable_no_both_flags s hs betId,
   fun ht =>
    ⟨fun sender msgValue timestamp =>
        joinBet_err_of_terminal s sender msgValue betId timestamp ht,
     fun sender msgValue pythFee oracle timestamp pOk rOk ec tOk =>
        resolveBet_err_of_terminal s sender msgValue pythFee oracle betId timestamp
          pOk rOk ec tOk ht,
     fun sender timestamp rOk =>
        cancelBet_err_of_terminal s sender betId timestamp rOk ht⟩⟩

/-- Witness for C5 at the reachable state `sC`, where bet `11` is resolved:
all three lifecycle calls on it revert. -/
theorem C5_witness :
    ¬ ((sC.bets 11).resolved = true ∧ (sC.bets 11).cancelled = true) ∧
    (∃ e, joinBet sC 5 2000000000 11 1400 = .error e) ∧
    (∃ e, resolveBet sC 5 9 9 (some cpFinal) 11 1400 true true true true = .error e) ∧
    (∃ e, cancelBet sC 1 11 1400 true = .error e) := by
  have h := C5_terminal_finality sC sC_reachable 11
  have ht : (sC.bets 11).resolved = true ∨ (sC.bets 11).cancelled = true :=
    Or.inl (by decide)
  exact ⟨h.1, (h.2 ht).1 5 2000000000 1400,
    (h.2 ht).2.1 5 9 9 (some cpFinal) 1400 true true true true,
    (h.2 ht).2.2 1 1400 true⟩

/-- C6: the trophy transfer in `resolveBet` is best-effort: its failure does
not change the result at all — the bet still ends resolved with the same pot
and fee refund transferred — whereas a failing winner-payout transfer aborts
the whole resolution with an error (and hence no state change). -/
theorem C6_trophy_best_effort (s : BetflixState) (sender msgValue pythFee : Nat)
    (p : Int) (betId timestamp : Nat) (ec rOk tOk : Bool)
    (h1 : (s.bets betId).player1 ≠ 0)
    (h2 : (s.bets betId).cancelled = false)
    (h3 : (s.bets betId).player2 ≠ 0)
    (h4 : (s.bets betId).deadline ≤ timestamp)
    (h5 : (s.bets betId).resolved = false)
    (h6 : pythFee ≤ msgValue)
    (h7 : 0 < p)
    (h8 : (s.bets betId).amount * 2 ≤ UINT256_MAX) :
    (∃ s2 outF outT,
      resolveBet s sender msgValue pythFee (some ⟨p, (s.bets betId).priceExponent⟩)
          betId timestamp true true ec false = .ok (s2, outF) ∧
      resolveBet s sender msgValue pythFee (some ⟨p, (s.bets betId).priceExponent⟩)
          betId timestamp true true ec true = .ok (s2, outT) ∧
      (s2.bets betId).resolved = true ∧
      outF.winner = outT.winner ∧
      outF.winnerPayout = outT.winnerPayout ∧
      outF.resolverRefund = outT.resolverRefund ∧
      outF.winnerPayout = (s.bets betId).amount * 2 ∧
      outF.resolverRefund = pythFee) ∧
    resolveBet s sender msgValue pythFee (some ⟨p, (s.bets betId).priceExponent⟩)
        betId timestamp false rOk ec tOk = .error .transferFailed := by
  constructor
  · have hF := resolveBet_ok_char s sender msgValue pythFee p betId timestamp ec false
      h1 h2 h3 (not_lt.mpr h4) h5 (not_lt.mpr h6) (not_le.mpr h7) (not_lt.mpr h8)
    have hT := resolveBet_ok_char s sender msgValue pythFee p betId timestamp ec true
      h1 h2 h3 (not_lt.mpr h4) h5 (not_lt.mpr h6) (not_le.mpr h7) (not_lt.mpr h8)
    refine ⟨_, _, _, hF, hT, ?_, rfl, rfl, rfl, rfl, rfl⟩
    simp [stateAfterResolve, resolvedBetRec, Function.update_same]
  · simp [resolveBet, h1, h2, h3, not_lt.mpr h4, h5, not_lt.mpr h6,
      not_le.mpr h7, not_lt.mpr h8]

/-- Witness for C6 at the concrete bet `11` of `sB`: a failed trophy call
leaves the settlement identical, and a failed payout transfer aborts with
the transfer error. -/
theorem C6_witness :
    (∃ s2 outF outT,
      resolveBet sB 3 9 9 (some ⟨5000000000000, (sB.bets 11).priceExponent⟩)
          11 1300 true true true false = .ok (s2, outF) ∧
      resolveBet sB 3 9 9 (some ⟨5000000000000, (sB.bets 11).priceExponent⟩)
          11 1300 true true true true = .ok (s2, outT) ∧
      (s2.bets 11).resolved = true ∧
      outF.winner = outT.winner ∧
      outF.winnerPayout = outT.winnerPayout ∧
      outF.resolverRefund = outT.resolverRefund ∧
      outF.winnerPayout = (sB.bets 11).amount * 2 ∧
      outF.resolverRefund = 9) ∧
    resolveBet sB 3 9 9 (some ⟨5000000000000, (sB.bets 11).priceExponent⟩)
        11 1300 false true true true = .error .transferFailed :=
  C6_trophy_best_effort sB 3 9 9 5000000000000 11 1300 true true true
    (by decide) (by decide) (by decide) (by decide) (by decide) (by decide)
    (by decide) (by decide)

/-- C8: a trophy label is released by cancellation and only by cancellation.
After a successful `cancelBet`, a `createBet` that reuses the cancelled bet's
label succeeds whenever all its other validations pass; after a successful
`resolveBet` on a bet of a reachable store, a `createBet` that reuses that
bet's label fails with the label-taken error whenever all its earlier
validations pass. -/
theorem C8_label_lifecycle
    (s : BetflixState) (sender betId timestamp : Nat) (rOk : Bool)
    (s1 : BetflixState) (refund : Nat)
    (sender2 msgValue2 pythFee2 : Nat) (cp : PythPrice)
    (targetUsd dur jd betId2 pfId t2 : Nat) (targetP : Int)
    (sb : BetflixState) (senderb msgValueb pythFeeb : Nat) (oracleb : Option PythPrice)
    (betIdb timestampb : Nat) (pOk rOkb ecb tOkb : Bool)
    (s1b : BetflixState) (outb : ResolveOut)
    (sender3 msgValue3 pythFee3 : Nat) (cp3 : PythPrice)
    (targetUsd3 dur3 jd3 betId3 pfId3 t3 : Nat) (targetP3 : Int)
    (hcancel : cancelBet s sender betId timestamp rOk = .ok (s1, refund))
    (ga1 : ¬ msgValue2 < pythFee2)
    (ga2 : ¬ msgValue2 - pythFee2 < MIN_BET)
    (ga3 : ¬ (dur < MIN_DURATION ∨ dur > MAX_DURATION))
    (ga4 : ¬ (jd < MIN_JOIN_DURATION ∨ jd > MAX_JOIN_DURATION))
    (ga5 : ¬ jd > dur)
    (ga6 : ¬ cp.price ≤ 0)
    (ga7 : convertToPythPrice targetUsd cp.expo = .ok targetP)
    (ga8 : (s1.bets betId2).player1 = 0)
    (ga9 : ¬ ((s.bets betId).ensLabel).utf8ByteSize = 0)
    (ga10 : ¬ ((s.bets betId).ensLabel).utf8ByteSize > 63)
    (ga11 : ¬ (t2 + dur > UINT256_MAX ∨ t2 + jd > UINT256_MAX))
    (hreach : Reachable sb)
    (hres : resolveBet sb senderb msgValueb pythFeeb oracleb betIdb timestampb
              pOk rOkb ecb tOkb = .ok (s1b, outb))
    (gb1 : ¬ msgValue3 < pythFee3)
    (gb2 : ¬ msgValue3 - pythFee3 < MIN_BET)
    (gb3 : ¬ (dur3 < MIN_DURATION ∨ dur3 > MAX_DURATION))
    (gb4 : ¬ (jd3 < MIN_JOIN_DURATION ∨ jd3 > MAX_JOIN_DURATION))
    (gb5 : ¬ jd3 > dur3)
    (gb6 : ¬ cp3.price ≤ 0)
    (gb7 : convertToPythPrice targetUsd3 cp3.expo = .ok targetP3)
    (gb8 : (s1b.bets betId3).player1 = 0)
    (gb9 : ¬ ((sb.bets betIdb).ensLabel).utf8ByteSize = 0)
    (gb10 : ¬ ((sb.bets betIdb).ensLabel).utf8ByteSize > 63) :
    (∃ s2, createBet s1 sender2 msgValue2 pythFee2 (some cp) targetUsd dur jd
        ((s.bets betId).ensLabel) betId2 pfId t2 = .ok (s2, betId2)) ∧
    createBet s1b sender3 msgValue3 pythFee3 (some cp3) targetUsd3 dur3 jd3
        ((sb.bets betIdb).ensLabel) betId3 pfId3 t3 = .error .ensSubdomainTaken := by
  constructor
  · obtain ⟨-, -, -, -, -, -, -, hS1⟩ := cancelBet_ok_inv hcancel
    subst hS1
    have hfree : (stateAfterCancel s betId).usedSubdomains ((s.bets betId).ensLabel)
        = false := by
      simp [stateAfterCancel, Function.update_same]
    exact ⟨_, createBet_ok_char _ sender2 msgValue2 pythFee2 cp targetUsd dur jd _
      betId2 pfId t2 targetP ga1 ga2 ga3 ga4 ga5 ga6 ga7 ga8 ga9 ga10 hfree ga11⟩
  · obtain ⟨hp1, hc1, -, -, -, -, fp, -, -, -, hS1b, -⟩ := resolveBet_ok_inv hres
    subst hS1b
    have hinv := (reachable_labelInv sb hreach).1 betIdb hp1 hc1
    exact createBet_label_taken _ sender3 msgValue3 pythFee3 cp3 targetUsd3 dur3 jd3
      _ betId3 pfId3 t3 targetP3 gb1 gb2 gb3 gb4 gb5 gb6 gb7 gb8 gb9 gb10 hinv

/-- Witness for C8: after cancelling bet `12` (label `"beta"`), creating bet
`13` with label `"beta"` succeeds; after resolving bet `11` (label
`"alpha"`), creating bet `14` with label `"alpha"` fails label-taken. -/
theorem C8_witness :
    (∃ s2, createBet sB2 5 2000000007 7 (some cpStart) 50000 300 60
        ((sA2.bets 12).ensLabel) 13 42 2000 = .ok (s2, 13)) ∧
    createBet sC 5 2000000007 7 (some cpStart) 50000 300 60
        ((sB.bets 11).ensLabel) 14 42 3000 = .error .ensSubdomainTaken :=
  C8_label_lifecycle sA2 1 12 1061 true sB2 2000000000
    5 2000000007 7 cpStart 50000 300 60 13 42 2000 5000000000000
    sB 3 9 9 (some cpFinal) 11 1300 true true true true sC outC
    5 2000000007 7 cpStart 50000 300 60 14 42 3000 5000000000000
    cancelB2_eq (by decide) (by decide) (by decide) (by decide) (by decide)
    (by decide) rfl (by decide) (by decide) (by decide) (by decide)
    sB_reachable resolveC_eq (by decide) (by decide) (by decide) (by decide)
    (by decide) (by decide) rfl (by decide) (by decide) (by decide)

/-- Witness for C7 at the concrete bet `11` of `sA`: its stored target
`5000000000000` at exponent `-8` converts back to exactly $50000, and the
zero price is rejected with the price-format error. -/
theorem C7_witness :
    getBetTargetPriceUSD sA 11 = .ok 50000 ∧
    convertToPythPrice 0 (-8) = .error .priceStale :=
  ⟨(C7_price_roundtrip sA 11 50000 (-8) (by decide) (by rfl) (by rfl)).1,
   (C7_price_roundtrip sA 11 50000 (-8) (by decide) (by rfl) (by rfl)).2 0 (-8) (Or.inl rfl)⟩

/-- Witness for C10 at concrete inputs: with `msg.value = 5` below the quoted
fee `7` the call panics, and the same call does not produce the named
insufficient-fee error. -/
theorem C10_witness :
    createBet initialState 1 5 7 (some cpStart) 50000 300 60 "alpha" 11 42 1000
      = .error .arithmeticPanic ∧
    createBet initialState 1 5 7 (some cpStart) 50000 300 60 "alpha" 11 42 1000
      ≠ .error .insufficientPythFee :=
  ⟨(C10_insufficient_fee_unreachable initialState 1 5 7 (some cpStart) 50000 300 60
      "alpha" 11 42 1000).1 (by decide),
   (C10_insufficient_fee_unreachable initialState 1 5 7 (some cpStart) 50000 300 60
      "alpha" 11 42 1000).2⟩

end Betflix
